import Mathlib

/-!
# Verification of the DeepFilterNet streaming adapter
(`src/rust/src/deep_filter_net_audio_effect.rs` of godot-simple-voip)

Shallow embedding of the real-time adapter: the shared configuration store,
the worker lifecycle, and the audio callback `process_rawptr`.

Modelling conventions:
* `f32` samples are modelled as exact rationals `ℚ` (every value is finite by
  construction; the source arithmetic `(l + r) * 0.5`, `abs`, `max` is mapped
  to the corresponding exact operations).
* The `u64` counters (`revision`, `dropped_input_samples`) are modelled as
  `Nat` with explicit wrapping (`% 2 ^ 64`) respectively saturation
  (`min _ (2 ^ 64 - 1)`) where the source uses `wrapping_add` /
  `saturating_add`.
* The two lock-free SPSC ring buffers are modelled, from the point of view of
  a single callback invocation, as their current contents: a `List ℚ` of the
  occupied samples, with capacity `DFN_RING_CAPACITY_SAMPLES`.
  `push_slice` accepts `min free len` samples appended in order, `pop_slice`
  removes from the front; both are non-blocking total functions.
* The worker thread body is modelled separately (`workerIter`,
  `pushRetrySteps`): a trace of observations of the shared `stop_flag` stands
  for the values read from the `AtomicBool` on successive loop iterations.
-/

/-- Capacity of both ring buffers (`DFN_RING_CAPACITY_SAMPLES`). -/
def DFN_RING_CAPACITY_SAMPLES : Nat := 48000

/-- Modulus of the 64-bit unsigned counters. -/
def U64_MOD : Nat := 2 ^ 64

/-- `u64::saturating_add` on the `Nat` model of `u64`. -/
def satAdd64 (a b : Nat) : Nat := min (a + b) (U64_MOD - 1)

/-- One stereo audio frame (`AudioFrame { left, right }`). -/
structure AudioFrame where
  left : ℚ
  right : ℚ
deriving Repr, DecidableEq

/-- `DeepFilterParams`: the suppression parameters captured by a worker. -/
structure DeepFilterParams where
  atten_lim_db : ℚ
  min_db_thresh : ℚ
  max_db_erb_thresh : ℚ
  max_db_df_thresh : ℚ
  post_filter_beta : ℚ
  reduce_mask_mode : Int
deriving Repr, DecidableEq

/-- `impl Default for DeepFilterParams` (mask mode `MEAN = 2` per the
exported enum documentation `0 = NONE, 1 = MAX, 2 = MEAN`). -/
def DeepFilterParams.defaults : DeepFilterParams :=
  { atten_lim_db := 100
    min_db_thresh := -10
    max_db_erb_thresh := 30
    max_db_df_thresh := 20
    post_filter_beta := 1 / 50
    reduce_mask_mode := 2 }

/-- `DeepFilterSharedConfig`: the ConfigStore contents behind the mutex. -/
structure DeepFilterSharedConfig where
  params : DeepFilterParams
  revision : Nat
deriving Repr, DecidableEq

/-- The six `#[export]` fields of `AudioEffectDeepFilterNet` that
`instantiate` copies into the store. -/
structure ExportedParams where
  attenuation_limit_db : ℚ
  min_db_threshold : ℚ
  max_db_erb_threshold : ℚ
  max_db_df_threshold : ℚ
  post_filter_beta : ℚ
  reduce_mask_mode : Int
deriving Repr, DecidableEq

/-- The ConfigStore write performed by `AudioEffectDeepFilterNet::instantiate`
(lines 128-136): clamp `atten_lim_db` with `abs`, `post_filter_beta` with
`max 0`, store the thresholds and the mask mode verbatim, and bump the
revision with `u64::wrapping_add 1`. -/
def instantiate_write (e : ExportedParams) (cfg : DeepFilterSharedConfig) :
    DeepFilterSharedConfig :=
  { params :=
      { atten_lim_db := |e.attenuation_limit_db|
        min_db_thresh := e.min_db_threshold
        max_db_erb_thresh := e.max_db_erb_threshold
        max_db_df_thresh := e.max_db_df_threshold
        post_filter_beta := max e.post_filter_beta 0
        reduce_mask_mode := e.reduce_mask_mode }
    revision := (cfg.revision + 1) % U64_MOD }

/-- The callback-side handle on a running worker (`DeepFilterWorker`):
the producer half of the input ring buffer and the consumer half of the
output ring buffer, modelled by the buffers' current contents. -/
structure WorkerHandle where
  inputQueue : List ℚ
  outputQueue : List ℚ
deriving Repr, DecidableEq

/-- `AudioEffectDeepFilterNetInstance`: the adapter state owned by the
audio callback. -/
structure InstanceState where
  sharedConfig : DeepFilterSharedConfig
  appliedRevision : Nat
  worker : Option WorkerHandle
  inputScratch : List ℚ
  outputScratch : List ℚ
  lastOutputSample : ℚ
  droppedInputSamples : Nat
deriving Repr, DecidableEq

/-- `stop_worker`: stop and drop any live worker. -/
def stop_worker (st : InstanceState) : InstanceState :=
  { st with worker := none }

/-- `start_worker_with_params` (lines 186-320) as seen from the callback
thread: on a mix-rate mismatch it logs and returns without creating a
worker; otherwise it creates fresh ring buffers and spawns the worker
thread, installing the handle.  Denoiser construction happens *inside* the
spawned thread: its failure leaves the handle installed (the thread simply
returns, so the queues stay empty forever).  Thread-spawn success is
assumed. -/
def start_worker_with_params (mixRate : Int) (st : InstanceState) :
    InstanceState :=
  if mixRate ≠ 48000 then st
  else { st with worker := some ⟨[], []⟩ }

/-- Whether `start_worker_with_params` logs the unsupported-mix-rate error
when invoked. -/
def logs_rate_mismatch (mixRate : Int) : Bool := mixRate ≠ 48000

/-- `refresh_runtime_config_if_needed` (lines 322-338).  The `Bool` records
whether `start_worker_with_params` was invoked (a worker (re)creation
attempt).  The poisoned-mutex early return is not modelled. -/
def refresh_runtime_config_if_needed (mixRate : Int) (st : InstanceState) :
    InstanceState × Bool :=
  if st.appliedRevision = st.sharedConfig.revision ∧ st.worker.isSome then
    (st, false)
  else
    (start_worker_with_params mixRate
      { stop_worker st with appliedRevision := st.sharedConfig.revision },
     true)

/-- `Vec::resize(n, 0.0)` restricted to the grow direction, as used by
`ensure_scratch_capacity`. -/
def resizeUp (l : List ℚ) (n : Nat) : List ℚ :=
  if l.length < n then l ++ List.replicate (n - l.length) 0 else l

/-- `ensure_scratch_capacity` (lines 340-347). -/
def ensure_scratch_capacity (n : Nat) (st : InstanceState) : InstanceState :=
  { st with
    inputScratch := resizeUp st.inputScratch n
    outputScratch := resizeUp st.outputScratch n }

/-- The mono downmix `(frame.left + frame.right) * 0.5`. -/
def downmix (f : AudioFrame) : ℚ := (f.left + f.right) * (1 / 2)

/-- Writing one mono sample to both output channels. -/
def dup (s : ℚ) : AudioFrame := ⟨s, s⟩

/-- The with-worker body of `process_rawptr` (lines 378-417), entered with
`frame_count = input.length ≥ 1`: downmix into the input scratch, push into
the input ring (counting dropped samples with `saturating_add`), pop up to
`frame_count` processed samples, emit them to both channels, and fill the
remaining frames from the dry mono scratch, tracking the last emitted
sample. -/
def process_with_worker (st : InstanceState) (w : WorkerHandle)
    (input : List AudioFrame) : InstanceState × List AudioFrame :=
  let n := input.length
  let mono := input.map downmix
  let pushed := min (DFN_RING_CAPACITY_SAMPLES - w.inputQueue.length) n
  let dropped :=
    if pushed < n then satAdd64 st.droppedInputSamples (n - pushed)
    else st.droppedInputSamples
  let k := min w.outputQueue.length n
  let q := w.outputQueue.take k
  ({ st with
      worker := some ⟨w.inputQueue ++ mono.take pushed, w.outputQueue.drop k⟩
      inputScratch := mono ++ st.inputScratch.drop n
      outputScratch := q ++ st.outputScratch.drop k
      droppedInputSamples := dropped
      lastOutputSample :=
        if k < n then mono.getD (n - 1) st.lastOutputSample
        else q.getD (k - 1) st.lastOutputSample },
   q.map dup ++ (mono.drop k).map dup)

/-- `process_rawptr` (lines 352-418).  `input` is the callback's
`frame_count` input frames; `outInit` is the prior (uninitialised) contents
of the caller's `frame_count`-frame output buffer, returned untouched only
by the `frame_count <= 0` early return.  Returns the new adapter state and
the output buffer contents after the call. -/
def process_rawptr (mixRate : Int) (st : InstanceState)
    (input outInit : List AudioFrame) : InstanceState × List AudioFrame :=
  if input.length = 0 then (st, outInit)
  else
    let st1 := (refresh_runtime_config_if_needed mixRate st).1
    let st2 := ensure_scratch_capacity input.length st1
    match st2.worker with
    | none => (st2, input.map fun f => ⟨f.left, f.right⟩)
    | some w => process_with_worker st2 w input

/-- Result of the denoiser `process` call for one hop, as observed by the
worker loop: `Ok` carries the enhanced hop (its `as_slice` always succeeds
on the standard-layout buffer), `Err` any error. -/
inductive HopResult where
  | ok (enhanced : List ℚ)
  | error
deriving Repr, DecidableEq

/-- Lines 262-273: the slice the worker emits for a hop — the enhanced hop
on success, the dry input chunk on process failure. -/
def hopOutput (inChunk : List ℚ) (r : HopResult) : List ℚ :=
  match r with
  | .ok enhanced => enhanced
  | .error => inChunk

/-- One iteration of the worker's `Running` loop (lines 246-301), in the
case where the inner push loop completes (output queue has room and the
stop flag stays clear during the push; the blocking/cancellation behaviour
of that inner loop is modelled by `pushRetrySteps`).  `stopFlag` is the
value read from the atomic at the top of the loop; `exited` records whether
the loop terminated at that check.  The partial-pop zero padding of line
254 is included even though the occupancy guard makes it dead. -/
def workerIter (hopSize : Nat) (process : List ℚ → HopResult)
    (stopFlag : Bool) (inQ outQ : List ℚ) :
    (List ℚ × List ℚ) × Bool :=
  if stopFlag then ((inQ, outQ), true)
  else if inQ.length < hopSize then ((inQ, outQ), false)
  else
    let popped := min inQ.length hopSize
    let inChunk := inQ.take hopSize ++ List.replicate (hopSize - popped) 0
    ((inQ.drop hopSize, outQ ++ hopOutput inChunk (process inChunk)), false)

/-- The worker's inner push-retry loop (lines 294-300):
`while written < hop_size && !stop_flag { written += push_slice(..); .. }`.
Each trace element is one evaluation of the loop condition: the value read
from the stop flag, paired with the number of samples the subsequent
`push_slice` accepts (0 when the output queue is full).  Returns `true`
iff the loop exits within the observed trace. -/
def pushRetrySteps (hopSize written : Nat) :
    List (Bool × Nat) → Bool
  | [] => hopSize ≤ written
  | (flag, accepted) :: rest =>
    if hopSize ≤ written then true
    else if flag then true
    else pushRetrySteps hopSize (written + min accepted (hopSize - written)) rest

/-- The contents of the output ring buffer visible to a state's worker
handle (empty when no worker exists). -/
def workerOutQueue (st : InstanceState) : List ℚ :=
  match st.worker with
  | some w => w.outputQueue
  | none => []

/-! ## Concrete states used by witnesses and counterexamples -/

/-- A concrete exported-parameter record. -/
def eZero : ExportedParams := ⟨0, 0, 0, 0, 0, 0⟩

/-- A concrete ConfigStore snapshot at revision 5. -/
def cfg5 : DeepFilterSharedConfig := ⟨DeepFilterParams.defaults, 5⟩

/-- Adapter state with no worker (e.g. after a mix-rate mismatch),
applied revision equal to the store's revision. -/
def stNoWorker : InstanceState := ⟨cfg5, 5, none, [], [], 0, 0⟩

/-- Adapter state whose worker handle is installed but whose thread died
after denoiser-construction failure: both queues stay empty forever. -/
def stDeadWorker : InstanceState := ⟨cfg5, 5, some ⟨[], []⟩, [], [], 0, 0⟩

/-- Adapter state with a live worker that has two processed samples
queued. -/
def stLiveWorker : InstanceState := ⟨cfg5, 5, some ⟨[], [10, 20]⟩, [], [], 0, 0⟩

/-! ## C9: the ConfigStore write clamps its fields -/

/-- C9: after every ConfigStore write performed by `instantiate`, the stored
attenuation limit (clamped by `abs`) and post-filter strength (clamped by
`max 0`) are non-negative, for every input value of the six exported
parameters, while the three dB thresholds are stored verbatim
(unconstrained). -/
theorem instantiate_write_clamps (e : ExportedParams)
    (cfg : DeepFilterSharedConfig) :
    0 ≤ (instantiate_write e cfg).params.atten_lim_db ∧
    0 ≤ (instantiate_write e cfg).params.post_filter_beta ∧
    (instantiate_write e cfg).params.min_db_thresh = e.min_db_threshold ∧
    (instantiate_write e cfg).params.max_db_erb_thresh = e.max_db_erb_threshold ∧
    (instantiate_write e cfg).params.max_db_df_thresh = e.max_db_df_threshold :=
  ⟨abs_nonneg _, le_max_right _ _, rfl, rfl, rfl⟩

/-! ## C3: revision increase on write -/

/-- C3 counterexample: at the maximal `u64` revision `2 ^ 64 - 1`, the write
performed by `instantiate` wraps the revision to 0 (`wrapping_add`), so the
stored revision after the write is *not* strictly greater than the revision
before it. -/
theorem instantiate_write_wraps_at_max :
    ¬ ((instantiate_write eZero
          { params := DeepFilterParams.defaults,
            revision := U64_MOD - 1 }).revision > U64_MOD - 1) := by
  have h : (instantiate_write eZero
      { params := DeepFilterParams.defaults,
        revision := U64_MOD - 1 }).revision = 0 := by
    show (U64_MOD - 1 + 1) % U64_MOD = 0
    have h1 : (0 : Nat) < U64_MOD := by norm_num [U64_MOD]
    rw [Nat.sub_add_cancel h1, Nat.mod_self]
  rw [h]
  exact Nat.not_lt_zero _

/-- C3 amended: for every parameter write performed by `instantiate` from a
prior revision strictly below `2 ^ 64 - 1`, the stored revision after the
write is strictly greater than the revision before it (it is exactly the
wrapping successor); at `2 ^ 64 - 1` the counter wraps to 0 instead. -/
theorem instantiate_write_increments (e : ExportedParams)
    (cfg : DeepFilterSharedConfig) (h : cfg.revision < U64_MOD - 1) :
    cfg.revision < (instantiate_write e cfg).revision ∧
    (instantiate_write e cfg).revision = (cfg.revision + 1) % U64_MOD := by
  refine ⟨?_, rfl⟩
  show cfg.revision < (cfg.revision + 1) % U64_MOD
  have hm : U64_MOD = 18446744073709551616 := by norm_num [U64_MOD]
  rw [Nat.mod_eq_of_lt (by omega)]
  omega

/-- Witness for C3's amended theorem at revision 5. -/
theorem instantiate_write_increments_witness :
    cfg5.revision < U64_MOD - 1 ∧
    cfg5.revision < (instantiate_write eZero cfg5).revision :=
  ⟨by norm_num [cfg5, U64_MOD],
   (instantiate_write_increments eZero cfg5 (by norm_num [cfg5, U64_MOD])).1⟩

/-! ## C2: retry policy after configuration / construction errors -/

/-- C2 counterexample: with the host mix rate at 44100 Hz and no worker,
`refresh_runtime_config_if_needed` invokes `start_worker_with_params`
(which logs the mix-rate error) on the first callback, and — the store's
revision unchanged — invokes it *again* on the next callback, because the
early-return guard also requires `worker.is_some()` and the worker is still
absent.  So after a configuration error, worker (re)creation *is* attempted
again before the revision changes. -/
theorem refresh_reattempts_after_rate_mismatch :
    (refresh_runtime_config_if_needed 44100 stNoWorker).2 = true ∧
    (refresh_runtime_config_if_needed 44100
        (refresh_runtime_config_if_needed 44100 stNoWorker).1).2 = true ∧
    (refresh_runtime_config_if_needed 44100 stNoWorker).1.sharedConfig.revision
      = stNoWorker.sharedConfig.revision ∧
    logs_rate_mismatch 44100 = true := by
  refine ⟨?_, ?_, rfl, rfl⟩ <;>
    simp [refresh_runtime_config_if_needed, start_worker_with_params,
      stop_worker, stNoWorker, cfg5]

/-- C2 amended: after a *denoiser construction* error the worker handle is
still installed (the failure was logged once, inside the thread), so as
long as the store's revision equals the applied revision,
`refresh_runtime_config_if_needed` returns without attempting any worker
(re)creation and the effect stays in its fallback mode; after a *mix-rate
mismatch*, however, no worker exists, so creation is re-attempted (and the
mismatch re-logged) on every callback even though the revision has not
changed, each attempt failing again and leaving the effect in passthrough. -/
theorem refresh_failure_policy (stC stR : InstanceState) (mixRate : Int)
    (hC1 : stC.appliedRevision = stC.sharedConfig.revision)
    (hC2 : stC.worker.isSome = true)
    (hR1 : mixRate ≠ 48000) (hR2 : stR.worker = none) :
    refresh_runtime_config_if_needed mixRate stC = (stC, false) ∧
    (refresh_runtime_config_if_needed mixRate stR).2 = true ∧
    (refresh_runtime_config_if_needed mixRate stR).1.worker = none ∧
    logs_rate_mismatch mixRate = true := by
  refine ⟨?_, ?_, ?_, ?_⟩
  · simp [refresh_runtime_config_if_needed, hC1, hC2]
  · simp [refresh_runtime_config_if_needed, hR2]
  · simp [refresh_runtime_config_if_needed, hR2, start_worker_with_params,
      stop_worker, hR1]
  · simp [logs_rate_mismatch, hR1]

/-- Witness for C2's amended theorem: the dead-thread state (construction
failure) is not restarted; the no-worker state at 44100 Hz is re-attempted. -/
theorem refresh_failure_policy_witness :
    stDeadWorker.appliedRevision = stDeadWorker.sharedConfig.revision ∧
    stDeadWorker.worker.isSome = true ∧
    (44100 : Int) ≠ 48000 ∧
    stNoWorker.worker = none ∧
    (refresh_runtime_config_if_needed 44100 stDeadWorker
        = (stDeadWorker, false) ∧
      (refresh_runtime_config_if_needed 44100 stNoWorker).2 = true ∧
      (refresh_runtime_config_if_needed 44100 stNoWorker).1.worker = none ∧
      logs_rate_mismatch 44100 = true) :=
  ⟨rfl, rfl, by decide, rfl,
    refresh_failure_policy stDeadWorker stNoWorker 44100 rfl rfl
      (by decide) rfl⟩

/-! ## C7: the push-retry loop is never starved by a full queue -/

/-- C7: the worker's inner push-retry loop re-checks the cancel flag on
every iteration, so once the stop flag is set (observed `true` at any
iteration of the trace) the loop exits within the trace — for *every*
sequence of accepted-sample counts, including an output queue that stays
permanently full (every `accepted` equal to 0). -/
theorem pushRetrySteps_exits_once_stopped (hopSize written : Nat)
    (trace : List (Bool × Nat)) (h : ∃ p ∈ trace, p.1 = true) :
    pushRetrySteps hopSize written trace = true := by
  induction trace generalizing written with
  | nil =>
    obtain ⟨p, hp, _⟩ := h
    exact absurd hp (List.not_mem_nil p)
  | cons hd tl ih =>
    obtain ⟨flag, accepted⟩ := hd
    obtain ⟨p, hp, hflag⟩ := h
    rw [pushRetrySteps]
    by_cases h1 : hopSize ≤ written
    · rw [if_pos h1]
    · by_cases h2 : flag = true
      · rw [if_neg h1, if_pos h2]
      · rcases List.mem_cons.mp hp with he | htl
        · subst he
          exact absurd hflag h2
        · rw [if_neg h1, if_neg h2]
          exact ih _ ⟨p, htl, hflag⟩

/-- Witness for C7: a two-iteration trace against a permanently full queue
(accepted counts 0) whose second flag read is `true`. -/
theorem pushRetrySteps_exits_once_stopped_witness :
    (∃ p ∈ [(false, 0), (true, 0)], p.1 = true) ∧
    pushRetrySteps 4 0 [(false, 0), (true, 0)] = true :=
  ⟨⟨(true, 0), by simp⟩,
   pushRetrySteps_exits_once_stopped 4 0 [(false, 0), (true, 0)]
     ⟨(true, 0), by simp⟩⟩

/-! ## C6: a failed hop yields the dry chunk and the loop continues -/

/-- C6: in the worker's running loop, whenever the denoiser's `process`
call for a hop returns an error, the dry input hop is pushed as that hop's
output and the loop continues to the next hop (`exited = false`): a single
failed hop never stops the worker. -/
theorem workerIter_error_emits_dry_and_continues (hopSize : Nat)
    (process : List ℚ → HopResult) (inQ outQ : List ℚ)
    (hlen : hopSize ≤ inQ.length)
    (herr : process (inQ.take hopSize) = .error) :
    workerIter hopSize process false inQ outQ =
      ((inQ.drop hopSize, outQ ++ inQ.take hopSize), false) := by
  have hmin : min inQ.length hopSize = hopSize := Nat.min_eq_right hlen
  rw [workerIter, if_neg (by simp), if_neg (Nat.not_lt.mpr hlen)]
  simp [hmin, herr, hopOutput]

/-- Witness for C6: hop size 2, three queued samples, a denoiser that
always fails; the dry hop `[1, 2]` is appended and the loop continues. -/
theorem workerIter_error_emits_dry_witness :
    (2 ≤ ([1, 2, 3] : List ℚ).length) ∧
    ((fun _ : List ℚ => HopResult.error) (([1, 2, 3] : List ℚ).take 2)
      = .error) ∧
    workerIter 2 (fun _ => HopResult.error) false [1, 2, 3] [7] =
      (([3], [7, 1, 2]), false) := by
  refine ⟨by simp, rfl, ?_⟩
  have h := workerIter_error_emits_dry_and_continues 2
    (fun _ => HopResult.error) [1, 2, 3] [7] (by simp) rfl
  simpa using h

/-! ## Helper lemmas about the callback path -/

/-- Growing the scratch buffers does not touch the worker handle. -/
lemma ensure_scratch_worker (n : Nat) (st : InstanceState) :
    (ensure_scratch_capacity n st).worker = st.worker := rfl

/-- Growing the scratch buffers does not touch the dropped-sample counter. -/
lemma ensure_scratch_dropped (n : Nat) (st : InstanceState) :
    (ensure_scratch_capacity n st).droppedInputSamples =
      st.droppedInputSamples := rfl

/-- When the applied revision matches the store and a worker is live,
the refresh is a no-op that attempts no worker creation. -/
lemma refresh_noop (mixRate : Int) (st : InstanceState)
    (ha : st.appliedRevision = st.sharedConfig.revision)
    (hw : st.worker.isSome = true) :
    refresh_runtime_config_if_needed mixRate st = (st, false) := by
  simp [refresh_runtime_config_if_needed, ha, hw]

/-- With no worker and a mismatched mix rate, the refresh leaves the worker
absent. -/
lemma refresh_stays_none (mixRate : Int) (st : InstanceState)
    (hw : st.worker = none) (hrate : mixRate ≠ 48000) :
    (refresh_runtime_config_if_needed mixRate st).1.worker = none := by
  simp [refresh_runtime_config_if_needed, hw, start_worker_with_params,
    stop_worker, hrate]

/-- `process_rawptr` with a non-empty callback and a worker present after
the refresh runs the with-worker body on the grown scratch state. -/
lemma process_rawptr_some (mixRate : Int) (st : InstanceState)
    (input outInit : List AudioFrame) (w : WorkerHandle)
    (h0 : ¬ input.length = 0)
    (hw : (refresh_runtime_config_if_needed mixRate st).1.worker = some w) :
    process_rawptr mixRate st input outInit =
      process_with_worker
        (ensure_scratch_capacity input.length
          (refresh_runtime_config_if_needed mixRate st).1) w input := by
  rw [process_rawptr]
  simp only [h0, if_false]
  rw [show (ensure_scratch_capacity input.length
      (refresh_runtime_config_if_needed mixRate st).1).worker = some w from hw]

/-- `process_rawptr` with a non-empty callback and no worker after the
refresh copies the input verbatim. -/
lemma process_rawptr_none (mixRate : Int) (st : InstanceState)
    (input outInit : List AudioFrame)
    (h0 : ¬ input.length = 0)
    (hw : (refresh_runtime_config_if_needed mixRate st).1.worker = none) :
    process_rawptr mixRate st input outInit =
      (ensure_scratch_capacity input.length
          (refresh_runtime_config_if_needed mixRate st).1,
        input.map fun f => ⟨f.left, f.right⟩) := by
  rw [process_rawptr]
  simp only [h0, if_false]
  rw [show (ensure_scratch_capacity input.length
      (refresh_runtime_config_if_needed mixRate st).1).worker = none from hw]

/-- The passthrough copy is the identity on the input frames. -/
lemma map_copy_eq_self (l : List AudioFrame) :
    (l.map fun f => (⟨f.left, f.right⟩ : AudioFrame)) = l := by
  have h : (fun f : AudioFrame => (⟨f.left, f.right⟩ : AudioFrame)) = id := rfl
  rw [h, List.map_id]

/-- The with-worker body emits the popped processed samples followed by the
dry mono tail. -/
lemma process_with_worker_out (st : InstanceState) (w : WorkerHandle)
    (input : List AudioFrame) :
    (process_with_worker st w input).2 =
      ((w.outputQueue.take (min w.outputQueue.length input.length)).map dup)
        ++ (((input.map downmix).drop
              (min w.outputQueue.length input.length)).map dup) := rfl

/-- The with-worker body emits exactly `frame_count` frames. -/
lemma process_with_worker_out_length (st : InstanceState) (w : WorkerHandle)
    (input : List AudioFrame) :
    (process_with_worker st w input).2.length = input.length := by
  rw [process_with_worker_out]
  simp only [List.length_append, List.length_map, List.length_take,
    List.length_drop]
  omega

/-- Per-frame characterisation of the with-worker output: processed samples
first, the dry mono downmix for the remaining positions. -/
lemma process_with_worker_out_getD (st : InstanceState) (w : WorkerHandle)
    (input : List AudioFrame) (i : Nat) (hi : i < input.length) :
    (process_with_worker st w input).2.getD i (dup 0) =
      if i < min w.outputQueue.length input.length
      then dup (w.outputQueue.getD i 0)
      else dup (downmix (input.getD i (dup 0))) := by
  rw [process_with_worker_out]
  have hAlen : ((w.outputQueue.take
      (min w.outputQueue.length input.length)).map dup).length =
      min w.outputQueue.length input.length := by
    simp only [List.length_map, List.length_take]
    omega
  by_cases hk : i < min w.outputQueue.length input.length
  · rw [if_pos hk]
    rw [List.getD_append _ _ _ _ (by omega)]
    rw [List.getD_map]
    congr 1
    have h1 : i < (w.outputQueue.take
        (min w.outputQueue.length input.length)).length := by
      simp only [List.length_take]; omega
    have h2 : i < w.outputQueue.length := by omega
    rw [List.getD_eq_getElem _ _ h1, List.getD_eq_getElem _ _ h2]
    exact List.getElem_take _
  · rw [if_neg hk]
    obtain ⟨j, rfl⟩ : ∃ j, i = min w.outputQueue.length input.length + j :=
      ⟨i - min w.outputQueue.length input.length, by omega⟩
    rw [List.getD_append_right _ _ _ _ (by omega)]
    rw [hAlen, Nat.add_sub_cancel_left]
    rw [List.getD_map]
    congr 1
    have h3 : j < ((input.map downmix).drop
        (min w.outputQueue.length input.length)).length := by
      simp only [List.length_map, List.length_drop]; omega
    have h4 : min w.outputQueue.length input.length + j <
        (input.map downmix).length := by
      simp only [List.length_map]; omega
    rw [List.getD_eq_getElem _ _ h3, List.getElem_drop, List.getElem_map,
      List.getD_eq_getElem _ _ hi]

/-! ## C4: passthrough identity when no worker could be started -/

/-- C4: in passthrough mode (no worker could be started, e.g. a forced
mix-rate mismatch), for every callback and every frame, the output buffer
equals the input buffer exactly — both channels of every frame unchanged. -/
theorem process_rawptr_passthrough_identity (mixRate : Int)
    (st : InstanceState) (input outInit : List AudioFrame)
    (hlen : outInit.length = input.length)
    (hrate : mixRate ≠ 48000) (hw : st.worker = none) :
    (process_rawptr mixRate st input outInit).2 = input := by
  by_cases h0 : input.length = 0
  · rw [process_rawptr, if_pos h0]
    have h1 : outInit = [] := List.length_eq_zero.mp (by omega)
    have h2 : input = [] := List.length_eq_zero.mp h0
    rw [h1, h2]
  · rw [process_rawptr_none mixRate st input outInit h0
      (refresh_stays_none mixRate st hw hrate)]
    exact map_copy_eq_self input

/-- Witness for C4: one frame through the 44100 Hz no-worker state. -/
theorem process_rawptr_passthrough_identity_witness :
    ([(⟨9, 9⟩ : AudioFrame)]).length = ([(⟨1, 2⟩ : AudioFrame)]).length ∧
    (44100 : Int) ≠ 48000 ∧
    stNoWorker.worker = none ∧
    (process_rawptr 44100 stNoWorker [⟨1, 2⟩] [⟨9, 9⟩]).2 = [⟨1, 2⟩] :=
  ⟨rfl, by decide, rfl,
    process_rawptr_passthrough_identity 44100 stNoWorker [⟨1, 2⟩] [⟨9, 9⟩]
      rfl (by decide) rfl⟩

/-! ## C5: under-run frames are filled with dry input -/

/-- C5: when a worker exists (and the refresh keeps it) and the output
queue yields `k = min queue.length frame_count` samples with `k ≤ i <
frame_count`, the remaining output frame at index `i` is filled with the
dry downmixed input sample at position `i`; that dry sample is always
available for position `i` (the mono scratch covers every callback frame,
so the last-emitted-sample hold of the source's `else` is never needed),
hence no remaining frame is left as garbage or silence. -/
theorem process_rawptr_underrun_dry_fill (mixRate : Int) (st : InstanceState)
    (w : WorkerHandle) (input outInit : List AudioFrame) (i : Nat)
    (ha : st.appliedRevision = st.sharedConfig.revision)
    (hw : st.worker = some w)
    (hk : min w.outputQueue.length input.length ≤ i)
    (hi : i < input.length) :
    i < (input.map downmix).length ∧
    (process_rawptr mixRate st input outInit).2.getD i (dup 0) =
      dup (downmix (input.getD i (dup 0))) := by
  have h0 : ¬ input.length = 0 := by omega
  have hsome : st.worker.isSome = true := by rw [hw]; rfl
  have hre : (refresh_runtime_config_if_needed mixRate st).1.worker
      = some w := by
    rw [refresh_noop mixRate st ha hsome]
    exact hw
  rw [process_rawptr_some mixRate st input outInit w h0 hre]
  refine ⟨by simpa using hi, ?_⟩
  rw [process_with_worker_out_getD _ _ _ i hi, if_neg (by omega)]

/-- Witness for C5: a live worker with two queued samples and a
three-frame callback; frame 2 is dry-filled with `(5 + 7) / 2 = 6`. -/
theorem process_rawptr_underrun_dry_fill_witness :
    stLiveWorker.appliedRevision = stLiveWorker.sharedConfig.revision ∧
    stLiveWorker.worker = some ⟨[], [10, 20]⟩ ∧
    (∃ w : WorkerHandle, stLiveWorker.worker = some w ∧
      min w.outputQueue.length
        ([⟨1, 3⟩, ⟨2, 4⟩, ⟨5, 7⟩] : List AudioFrame).length ≤ 2) ∧
    (2 < ([⟨1, 3⟩, ⟨2, 4⟩, ⟨5, 7⟩] : List AudioFrame).length) ∧
    (process_rawptr 48000 stLiveWorker [⟨1, 3⟩, ⟨2, 4⟩, ⟨5, 7⟩]
        [⟨9, 9⟩, ⟨9, 9⟩, ⟨9, 9⟩]).2.getD 2 (dup 0) =
      dup (downmix (([⟨1, 3⟩, ⟨2, 4⟩, ⟨5, 7⟩] :
        List AudioFrame).getD 2 (dup 0))) :=
  ⟨rfl, rfl, ⟨⟨[], [10, 20]⟩, rfl, by decide⟩, by decide,
    (process_rawptr_underrun_dry_fill 48000 stLiveWorker ⟨[], [10, 20]⟩
      [⟨1, 3⟩, ⟨2, 4⟩, ⟨5, 7⟩] [⟨9, 9⟩, ⟨9, 9⟩, ⟨9, 9⟩] 2 rfl rfl
      (by decide) (by decide)).2⟩

/-! ## C10: passthrough after construction failure is mono -/

/-- C10: if the worker thread spawned but denoiser construction failed
inside it, the worker handle remains installed (with both queues forever
empty), so every subsequent callback keeps the handle and writes the mono
downmix `(left + right) / 2` to both channels of every output frame via
the dry-fill path — not the unchanged stereo copy of the no-worker
passthrough branch. -/
theorem process_rawptr_dead_worker_mono (mixRate : Int) (st : InstanceState)
    (inQ : List ℚ) (input outInit : List AudioFrame) (i : Nat)
    (ha : st.appliedRevision = st.sharedConfig.revision)
    (hw : st.worker = some ⟨inQ, []⟩)
    (hi : i < input.length) :
    (process_rawptr mixRate st input outInit).1.worker.isSome = true ∧
    ((process_rawptr mixRate st input outInit).2.getD i (dup 0)).left =
      (((input.getD i (dup 0)).left + (input.getD i (dup 0)).right) *
        (1 / 2)) ∧
    ((process_rawptr mixRate st input outInit).2.getD i (dup 0)).right =
      ((process_rawptr mixRate st input outInit).2.getD i (dup 0)).left := by
  have h0 : ¬ input.length = 0 := by omega
  have hsome : st.worker.isSome = true := by rw [hw]; rfl
  have hre : (refresh_runtime_config_if_needed mixRate st).1.worker
      = some ⟨inQ, []⟩ := by
    rw [refresh_noop mixRate st ha hsome]
    exact hw
  rw [process_rawptr_some mixRate st input outInit ⟨inQ, []⟩ h0 hre]
  have hout := process_with_worker_out_getD
    (ensure_scratch_capacity input.length
      (refresh_runtime_config_if_needed mixRate st).1) ⟨inQ, []⟩ input i hi
  rw [hout, if_neg (by simp)]
  exact ⟨rfl, rfl, rfl⟩

/-- Witness for C10: the dead-worker state turns the stereo frame `⟨1, 3⟩`
into mono `2` on both channels (so output differs from input). -/
theorem process_rawptr_dead_worker_mono_witness :
    stDeadWorker.appliedRevision = stDeadWorker.sharedConfig.revision ∧
    stDeadWorker.worker = some ⟨[], []⟩ ∧
    (0 < ([⟨1, 3⟩] : List AudioFrame).length) ∧
    ((process_rawptr 48000 stDeadWorker [⟨1, 3⟩] [⟨9, 9⟩]).1.worker.isSome
        = true ∧
      ((process_rawptr 48000 stDeadWorker [⟨1, 3⟩]
          [⟨9, 9⟩]).2.getD 0 (dup 0)).left =
        ((((([⟨1, 3⟩] : List AudioFrame).getD 0 (dup 0))).left +
          ((([⟨1, 3⟩] : List AudioFrame).getD 0 (dup 0))).right) * (1 / 2)) ∧
      ((process_rawptr 48000 stDeadWorker [⟨1, 3⟩]
          [⟨9, 9⟩]).2.getD 0 (dup 0)).right =
        ((process_rawptr 48000 stDeadWorker [⟨1, 3⟩]
          [⟨9, 9⟩]).2.getD 0 (dup 0)).left) :=
  ⟨rfl, rfl, by decide,
    process_rawptr_dead_worker_mono 48000 stDeadWorker [] [⟨1, 3⟩] [⟨9, 9⟩]
      0 rfl rfl (by decide)⟩

/-! ## C8: non-blocking push and exact drop accounting -/

/-- C8: on each callback with a live worker, the input push is the total,
never-blocking `push_slice`: it accepts `pushed = min free frame_count`
samples, appending exactly those to the input queue in order, for every
queue fill level; when `pushed < frame_count` the cumulative dropped-sample
counter increases by exactly `frame_count - pushed` (it is untouched when
all samples fit), the only caveat being the `saturating_add` cap at
`2 ^ 64 - 1`, unreachable while the counter stays below the cap. -/
theorem process_rawptr_push_drop_count (mixRate : Int) (st : InstanceState)
    (w : WorkerHandle) (input outInit : List AudioFrame)
    (ha : st.appliedRevision = st.sharedConfig.revision)
    (hw : st.worker = some w) (h0 : ¬ input.length = 0) :
    (process_rawptr mixRate st input outInit).1.droppedInputSamples =
      (if min (DFN_RING_CAPACITY_SAMPLES - w.inputQueue.length) input.length
          < input.length
       then satAdd64 st.droppedInputSamples (input.length -
          min (DFN_RING_CAPACITY_SAMPLES - w.inputQueue.length) input.length)
       else st.droppedInputSamples) ∧
    (st.droppedInputSamples + (input.length -
        min (DFN_RING_CAPACITY_SAMPLES - w.inputQueue.length) input.length)
        < U64_MOD →
      (process_rawptr mixRate st input outInit).1.droppedInputSamples =
        st.droppedInputSamples + (input.length -
          min (DFN_RING_CAPACITY_SAMPLES - w.inputQueue.length)
            input.length)) ∧
    (min (DFN_RING_CAPACITY_SAMPLES - w.inputQueue.length) input.length
        = input.length →
      (process_rawptr mixRate st input outInit).1.droppedInputSamples =
        st.droppedInputSamples) ∧
    (process_rawptr mixRate st input outInit).1.worker =
      some ⟨w.inputQueue ++ (input.map downmix).take
          (min (DFN_RING_CAPACITY_SAMPLES - w.inputQueue.length)
            input.length),
        w.outputQueue.drop (min w.outputQueue.length input.length)⟩ := by
  have hsome : st.worker.isSome = true := by rw [hw]; rfl
  have hre : (refresh_runtime_config_if_needed mixRate st).1.worker
      = some w := by
    rw [refresh_noop mixRate st ha hsome]
    exact hw
  rw [process_rawptr_some mixRate st input outInit w h0 hre]
  simp only [refresh_noop mixRate st ha hsome]
  have hdrop : (process_with_worker
      (ensure_scratch_capacity input.length st) w input).1.droppedInputSamples
      = (if min (DFN_RING_CAPACITY_SAMPLES - w.inputQueue.length)
            input.length < input.length
         then satAdd64 st.droppedInputSamples (input.length -
            min (DFN_RING_CAPACITY_SAMPLES - w.inputQueue.length)
              input.length)
         else st.droppedInputSamples) := rfl
  rw [hdrop]
  refine ⟨rfl, ?_, ?_, rfl⟩
  · intro hlt
    by_cases hp : min (DFN_RING_CAPACITY_SAMPLES - w.inputQueue.length)
        input.length < input.length
    · rw [if_pos hp]
      have hm : U64_MOD = 18446744073709551616 := by norm_num [U64_MOD]
      simp only [satAdd64]
      omega
    · rw [if_neg hp]
      omega
  · intro hall
    rw [if_neg (by omega)]


/-- Witness for C8: a two-frame callback into the live worker's empty
input queue; everything fits, the counter is untouched. -/
theorem process_rawptr_push_drop_count_witness :
    stLiveWorker.appliedRevision = stLiveWorker.sharedConfig.revision ∧
    stLiveWorker.worker = some ⟨[], [10, 20]⟩ ∧
    (¬ ([⟨1, 3⟩, ⟨2, 4⟩] : List AudioFrame).length = 0) ∧
    (process_rawptr 48000 stLiveWorker [⟨1, 3⟩, ⟨2, 4⟩]
        [⟨9, 9⟩, ⟨9, 9⟩]).1.droppedInputSamples =
      (if min (DFN_RING_CAPACITY_SAMPLES - ([] : List ℚ).length)
          ([⟨1, 3⟩, ⟨2, 4⟩] : List AudioFrame).length
          < ([⟨1, 3⟩, ⟨2, 4⟩] : List AudioFrame).length
       then satAdd64 stLiveWorker.droppedInputSamples
          (([⟨1, 3⟩, ⟨2, 4⟩] : List AudioFrame).length -
            min (DFN_RING_CAPACITY_SAMPLES - ([] : List ℚ).length)
              ([⟨1, 3⟩, ⟨2, 4⟩] : List AudioFrame).length)
       else stLiveWorker.droppedInputSamples) :=
  ⟨rfl, rfl, by decide,
    (process_rawptr_push_drop_count 48000 stLiveWorker
      ⟨[], [10, 20]⟩ [⟨1, 3⟩, ⟨2, 4⟩] [⟨9, 9⟩, ⟨9, 9⟩]
      rfl rfl (by decide)).1⟩

/-! ## C1: every callback frame is written, from one of three sources -/

/-- A worker present after the refresh is either the state's own worker
(kept by the early return) or a freshly created one with empty queues. -/
lemma refresh_worker_cases (mixRate : Int) (st : InstanceState)
    (w : WorkerHandle)
    (hw : (refresh_runtime_config_if_needed mixRate st).1.worker = some w) :
    st.worker = some w ∨ w.outputQueue = [] := by
  unfold refresh_runtime_config_if_needed at hw
  by_cases hc : st.appliedRevision = st.sharedConfig.revision ∧
      st.worker.isSome
  · rw [if_pos hc] at hw
    exact .inl hw
  · rw [if_neg hc] at hw
    unfold start_worker_with_params at hw
    by_cases hr : mixRate ≠ 48000
    · rw [if_pos hr] at hw
      simp [stop_worker] at hw
    · rw [if_neg hr] at hw
      simp only [InstanceState.worker, Option.some.injEq] at hw
      refine .inr ?_
      rw [← hw]

/-- C1: for every callback with `frame_count = N ≥ 0` frames and every
adapter state, `process_rawptr` writes exactly `N` output frames: the
output has length `N`, it is independent of the prior (uninitialised)
contents of the output buffer, and every frame is either the passthrough
copy of its input frame or a both-channels-equal sample drawn from the
processed output queue or equal to the dry mono downmix of its input
frame.  All samples are exact rationals built from the (finite) inputs and
queue contents, so the adapter's own arithmetic produces no NaN/Inf. -/
theorem process_rawptr_writes_every_frame (mixRate : Int)
    (st : InstanceState) (input outInit outInit2 : List AudioFrame)
    (h1 : outInit.length = input.length)
    (h2 : outInit2.length = input.length) :
    (process_rawptr mixRate st input outInit).2.length = input.length ∧
    (process_rawptr mixRate st input outInit).2 =
      (process_rawptr mixRate st input outInit2).2 ∧
    ∀ i, i < input.length →
      (process_rawptr mixRate st input outInit).2.getD i (dup 0) =
          input.getD i (dup 0) ∨
      (((process_rawptr mixRate st input outInit).2.getD i (dup 0)).right =
          ((process_rawptr mixRate st input outInit).2.getD i (dup 0)).left ∧
        (((process_rawptr mixRate st input outInit).2.getD i (dup 0)).left
            ∈ workerOutQueue st ∨
          ((process_rawptr mixRate st input outInit).2.getD i (dup 0)).left
            = downmix (input.getD i (dup 0)))) := by
  by_cases h0 : input.length = 0
  · have hi : input = [] := List.length_eq_zero.mp h0
    have ho : outInit = [] := List.length_eq_zero.mp (by omega)
    have ho2 : outInit2 = [] := List.length_eq_zero.mp (by omega)
    subst hi ho ho2
    refine ⟨rfl, rfl, ?_⟩
    intro i hilt
    exact absurd hilt (by omega)
  · cases hrw : (refresh_runtime_config_if_needed mixRate st).1.worker with
    | none =>
      rw [process_rawptr_none mixRate st input outInit h0 hrw,
        process_rawptr_none mixRate st input outInit2 h0 hrw]
      refine ⟨by simp, rfl, ?_⟩
      intro i hilt
      rw [map_copy_eq_self]
      exact .inl rfl
    | some w =>
      rw [process_rawptr_some mixRate st input outInit w h0 hrw,
        process_rawptr_some mixRate st input outInit2 w h0 hrw]
      refine ⟨process_with_worker_out_length _ _ _, rfl, ?_⟩
      intro i hilt
      rw [process_with_worker_out_getD _ _ _ i hilt]
      by_cases hk : i < min w.outputQueue.length input.length
      · rw [if_pos hk]
        refine .inr ⟨rfl, .inl ?_⟩
        have hiq : i < w.outputQueue.length := by omega
        rcases refresh_worker_cases mixRate st w hrw with hsw | hempty
        · have hwq : workerOutQueue st = w.outputQueue := by
            rw [workerOutQueue, hsw]
          rw [hwq]
          show w.outputQueue.getD i 0 ∈ w.outputQueue
          rw [List.getD_eq_getElem _ _ hiq]
          exact List.getElem_mem hiq
        · rw [hempty] at hiq
          exact absurd hiq (by simp)
      · rw [if_neg hk]
        exact .inr ⟨rfl, .inr rfl⟩

/-- Witness for C1: a one-frame callback through the live-worker state,
with two different initial output buffers. -/
theorem process_rawptr_writes_every_frame_witness :
    ([(⟨9, 9⟩ : AudioFrame)]).length = ([(⟨1, 3⟩ : AudioFrame)]).length ∧
    ([(⟨8, 8⟩ : AudioFrame)]).length = ([(⟨1, 3⟩ : AudioFrame)]).length ∧
    ((process_rawptr 48000 stLiveWorker [⟨1, 3⟩] [⟨9, 9⟩]).2.length =
        ([(⟨1, 3⟩ : AudioFrame)]).length ∧
      (process_rawptr 48000 stLiveWorker [⟨1, 3⟩] [⟨9, 9⟩]).2 =
        (process_rawptr 48000 stLiveWorker [⟨1, 3⟩] [⟨8, 8⟩]).2 ∧
      ∀ i, i < ([(⟨1, 3⟩ : AudioFrame)]).length →
        (process_rawptr 48000 stLiveWorker [⟨1, 3⟩]
            [⟨9, 9⟩]).2.getD i (dup 0) =
            ([(⟨1, 3⟩ : AudioFrame)]).getD i (dup 0) ∨
        (((process_rawptr 48000 stLiveWorker [⟨1, 3⟩]
              [⟨9, 9⟩]).2.getD i (dup 0)).right =
            ((process_rawptr 48000 stLiveWorker [⟨1, 3⟩]
              [⟨9, 9⟩]).2.getD i (dup 0)).left ∧
          (((process_rawptr 48000 stLiveWorker [⟨1, 3⟩]
                [⟨9, 9⟩]).2.getD i (dup 0)).left
              ∈ workerOutQueue stLiveWorker ∨
            ((process_rawptr 48000 stLiveWorker [⟨1, 3⟩]
                [⟨9, 9⟩]).2.getD i (dup 0)).left =
              downmix (([(⟨1, 3⟩ : AudioFrame)]).getD i (dup 0))))) :=
  ⟨rfl, rfl,
    process_rawptr_writes_every_frame 48000 stLiveWorker [⟨1, 3⟩]
      [⟨9, 9⟩] [⟨8, 8⟩] rfl rfl⟩
